import Mathlib

/-!
Verification of the configuration module of the gfe_driver repository
(src/configuration.hpp). The C++ class `Configuration` is embedded shallowly:
the object becomes a Lean structure, each member function becomes a Lean
function on that structure, and setters that can raise a `ConfigurationError`
return `Except ConfigurationError Configuration`. Machine integers
(`uint64_t`, `int`) are modelled as `Nat` / `Int` (no arithmetic that could
overflow occurs in this module: values are only stored and read back), and
`double` fields are modelled as `Rat` (only comparison against 0 and storage
occur). Member functions whose bodies are declared in the header but defined
in a translation unit not present under src/ are modelled from the spec and
carry a doc comment saying so.
-/

/-- Modelled from the spec: the database backend is an external collaborator;
only an opaque connection handle opened on a path is visible to this module
(field `common::Database* m_database`). -/
structure Database where
  path : String
deriving DecidableEq

/-- Modelled from the spec: the libraries themselves are external; a factory is
the registered constructor capability for one library name
(field `m_library_factory`, a function pointer in the C++ source). -/
structure LibraryFactory where
  name : String
deriving DecidableEq

/-- Modelled from the spec: a library-adapter instance, parameterized by the
`directed` flag handed to the factory; its internal orientation is the flag. -/
structure LibraryInterface where
  library : String
  directed : Bool
deriving DecidableEq

/-- Modelled from the spec: invoking the registered constructor produces a
newly created adapter instance whose orientation matches the flag. -/
def LibraryFactory.make (f : LibraryFactory) (directed : Bool) : LibraryInterface :=
  ⟨f.name, directed⟩

/-- The generic configuration error (`DEFINE_EXCEPTION(ConfigurationError)` in
the source); per the spec it carries the offending field name and value. -/
structure ConfigurationError where
  fieldName : String
  value : String
deriving DecidableEq

/-- Type of counter for the number of threads (`enum ThreadsType` in the
source). -/
inductive ThreadsType where
  | THREADS_READ
  | THREADS_WRITE
  | THREADS_TOTAL
deriving DecidableEq

/-- The `Configuration` class of src/configuration.hpp. Each field carries the
default value given by its in-class member initializer in the header
(e.g. `uint64_t m_build_frequency { 5 * 60 * 1000 }`,
`uint64_t m_seed = 5051789ull`, `bool m_graph_directed = true`). -/
structure Configuration where
  m_build_frequency : Nat := 5 * 60 * 1000
  m_coeff_aging : Rat := 0
  m_database : Option Database := none
  m_database_path : String := ""
  m_ef_vertices : Rat := 1
  m_ef_edges : Rat := 1
  m_graph_directed : Bool := true
  m_library_name : String := ""
  m_max_weight : Rat := 1
  m_num_repetitions : Nat := 5
  m_num_threads_read : Int := 1
  m_num_threads_write : Int := 1
  m_path_graph_to_load : String := ""
  m_seed : Nat := 5051789
  m_timeout_seconds : Nat := 3600
  m_update_log : String := ""
  m_library_factory : Option LibraryFactory := none
  m_validate_output : Bool := false
deriving DecidableEq

/-- The default-constructed `Configuration` (the default constructor is
declared in the header; every field takes the value of its in-class member
initializer). -/
def Configuration.default : Configuration := {}

/-- Modelled from the spec: the body of `set_num_thread_read` is not under
src/ (only its declaration is); the spec says thread counts reject values
below 1 with a configuration error carrying field name and value, and
otherwise store the value with no other mutation. -/
def Configuration.set_num_thread_read (c : Configuration) (value : Int) :
    Except ConfigurationError Configuration :=
  if value < 1 then .error ⟨"num_threads_read", toString value⟩
  else .ok { c with m_num_threads_read := value }

/-- Modelled from the spec: the body of `set_num_thread_write` is not under
src/; same validation policy as the read counterpart. -/
def Configuration.set_num_thread_write (c : Configuration) (value : Int) :
    Except ConfigurationError Configuration :=
  if value < 1 then .error ⟨"num_threads_write", toString value⟩
  else .ok { c with m_num_threads_write := value }

/-- Modelled from the spec: the body of `set_ef_vertices` is not under src/;
expansion factors reject values at or below 0. -/
def Configuration.set_ef_vertices (c : Configuration) (value : Rat) :
    Except ConfigurationError Configuration :=
  if value ≤ 0 then .error ⟨"ef_vertices", toString value⟩
  else .ok { c with m_ef_vertices := value }

/-- Modelled from the spec: the body of `set_ef_edges` is not under src/;
expansion factors reject values at or below 0. -/
def Configuration.set_ef_edges (c : Configuration) (value : Rat) :
    Except ConfigurationError Configuration :=
  if value ≤ 0 then .error ⟨"ef_edges", toString value⟩
  else .ok { c with m_ef_edges := value }

/-- Modelled from the spec: the body of `set_max_weight` is not under src/;
the max weight rejects values at or below 0. -/
def Configuration.set_max_weight (c : Configuration) (value : Rat) :
    Except ConfigurationError Configuration :=
  if value ≤ 0 then .error ⟨"max_weight", toString value⟩
  else .ok { c with m_max_weight := value }

/-- Modelled from the spec: the body of `set_coeff_aging` is not under src/;
the aging coefficient is a float at or above 0, so negative values are
rejected. -/
def Configuration.set_coeff_aging (c : Configuration) (value : Rat) :
    Except ConfigurationError Configuration :=
  if value < 0 then .error ⟨"coeff_aging", toString value⟩
  else .ok { c with m_coeff_aging := value }

/-- Modelled from the spec: the body of `set_num_repetitions` is not under
src/; the data model requires an integer at or above 1. -/
def Configuration.set_num_repetitions (c : Configuration) (value : Nat) :
    Except ConfigurationError Configuration :=
  if value < 1 then .error ⟨"num_repetitions", toString value⟩
  else .ok { c with m_num_repetitions := value }

/-- Modelled from the spec: the body of `set_timeout` is not under src/; the
spec says timeouts reject negative values and 0 is a valid sentinel. (The C++
signature takes `uint64_t`, so a negative value cannot even cross the call
boundary; we model the wider contract of the spec on `Int`.) -/
def Configuration.set_timeout (c : Configuration) (seconds : Int) :
    Except ConfigurationError Configuration :=
  if seconds < 0 then .error ⟨"timeout", toString seconds⟩
  else .ok { c with m_timeout_seconds := seconds.toNat }

/-- Modelled from the spec: the body of `set_build_frequency` is not under
src/; same policy as the timeout — reject negatives, 0 is a valid sentinel. -/
def Configuration.set_build_frequency (c : Configuration) (millisecs : Int) :
    Except ConfigurationError Configuration :=
  if millisecs < 0 then .error ⟨"build_frequency", toString millisecs⟩
  else .ok { c with m_build_frequency := millisecs.toNat }

/-- Modelled from the spec: the body of `set_graph` is not under src/; no
validation constraint is stated for the graph path, the value is stored. -/
def Configuration.set_graph (c : Configuration) (graph : String) : Configuration :=
  { c with m_path_graph_to_load := graph }

/-- Inline in the header: `void set_database_path(const std::string& path){
m_database_path = path; }` — stores unconditionally, no validation. -/
def Configuration.set_database_path (c : Configuration) (path : String) : Configuration :=
  { c with m_database_path := path }

/-- Inline in the header: `void set_seed(uint64_t value){ m_seed = value; }` —
stores unconditionally, no validation. -/
def Configuration.set_seed (c : Configuration) (value : Nat) : Configuration :=
  { c with m_seed := value }

/-- Inline getter: `get_library_name`. -/
def Configuration.get_library_name (c : Configuration) : String := c.m_library_name

/-- Inline getter: `get_update_log`. -/
def Configuration.get_update_log (c : Configuration) : String := c.m_update_log

/-- Inline getter: `is_graph_directed`. -/
def Configuration.is_graph_directed (c : Configuration) : Bool := c.m_graph_directed

/-- Inline getter: `validate_output`. -/
def Configuration.validate_output (c : Configuration) : Bool := c.m_validate_output

/-- Inline getter: `coefficient_aging`. -/
def Configuration.coefficient_aging (c : Configuration) : Rat := c.m_coeff_aging

/-- Inline getter: `num_repetitions`. -/
def Configuration.num_repetitions (c : Configuration) : Nat := c.m_num_repetitions

/-- Inline getter: `get_path_graph`. -/
def Configuration.get_path_graph (c : Configuration) : String := c.m_path_graph_to_load

/-- Inline getter: `get_timeout_per_operation`. -/
def Configuration.get_timeout_per_operation (c : Configuration) : Nat := c.m_timeout_seconds

/-- Inline getter: `get_ef_edges`. -/
def Configuration.get_ef_edges (c : Configuration) : Rat := c.m_ef_edges

/-- Inline getter: `get_ef_vertices`. -/
def Configuration.get_ef_vertices (c : Configuration) : Rat := c.m_ef_vertices

/-- Inline getter: `get_build_frequency`. -/
def Configuration.get_build_frequency (c : Configuration) : Nat := c.m_build_frequency

/-- Inline getter: `seed`. -/
def Configuration.seed (c : Configuration) : Nat := c.m_seed

/-- Inline getter: `max_weight`. -/
def Configuration.max_weight (c : Configuration) : Rat := c.m_max_weight

/-- Inline getter: `get_database_path`. -/
def Configuration.get_database_path (c : Configuration) : String := c.m_database_path

/-- Modelled from the spec: the body of `num_threads` is not under src/ (the
header declares `int num_threads(ThreadsType type) const`); the spec says
READ and WRITE return the respective stored counts and TOTAL returns their
sum. -/
def Configuration.num_threads (c : Configuration) : ThreadsType → Int
  | .THREADS_READ => c.m_num_threads_read
  | .THREADS_WRITE => c.m_num_threads_write
  | .THREADS_TOTAL => c.m_num_threads_read + c.m_num_threads_write

/-- Modelled from the spec: the body of `has_database` is not under src/; the
spec says it is true iff `database_path` is non-empty. -/
def Configuration.has_database (c : Configuration) : Bool :=
  c.m_database_path != ""

/-- Modelled from the spec: the body of `db` is not under src/; calling it
with no database configured raises a configuration error; otherwise it
returns the lazily opened, process-lifetime connection handle (the handle is
opened on first use and cached in `m_database`, and reused afterwards). -/
def Configuration.db (c : Configuration) :
    Except ConfigurationError (Configuration × Database) :=
  if c.m_database_path = "" then .error ⟨"database_path", c.m_database_path⟩
  else
    match c.m_database with
    | some d => .ok (c, d)
    | none =>
      let d : Database := ⟨c.m_database_path⟩
      .ok ({ c with m_database := some d }, d)

/-- Modelled from the spec: the body of `generate_graph_library` is not under
src/; it fails with an unknown-library configuration error when no factory is
registered for the configured name, and otherwise returns a newly created,
exclusively owned adapter built by the factory with the configured `directed`
flag, with no side effect on the configuration. -/
def Configuration.generate_graph_library (c : Configuration) :
    Except ConfigurationError LibraryInterface :=
  match c.m_library_factory with
  | none => .error ⟨"library_name", c.m_library_name⟩
  | some f => .ok (f.make c.m_graph_directed)

/-- Modelled from the spec: at init time the registry resolves the configured
`library_name` to its registered factory, if any, and stores it in
`m_library_factory`. -/
def Configuration.resolve_library (c : Configuration)
    (reg : String → Option LibraryFactory) : Configuration :=
  { c with m_library_factory := reg c.m_library_name }

/-- A concrete registry with a single registered library, used to exercise the
factory-resolution path on explicit inputs. The empty name is never
registered. -/
def sampleRegistry : String → Option LibraryFactory :=
  fun s => if s = "llama" then some ⟨"llama"⟩ else none

/-- C1: for every pair of valid thread counts r ≥ 1 and w ≥ 1, after setting
the read count to r and the write count to w, `num_threads` returns r for
READ, w for WRITE and r + w for TOTAL; and the derived identity
TOTAL = READ + WRITE holds in every configuration state. -/
theorem C1_num_threads_after_set (c : Configuration) (r w : Int)
    (hr : 1 ≤ r) (hw : 1 ≤ w) :
    ∃ c1 c2, c.set_num_thread_read r = .ok c1 ∧
      c1.set_num_thread_write w = .ok c2 ∧
      c2.num_threads .THREADS_READ = r ∧
      c2.num_threads .THREADS_WRITE = w ∧
      c2.num_threads .THREADS_TOTAL = r + w ∧
      ∀ d : Configuration,
        d.num_threads .THREADS_TOTAL =
          d.num_threads .THREADS_READ + d.num_threads .THREADS_WRITE := by
  refine ⟨{ c with m_num_threads_read := r },
    { c with m_num_threads_read := r, m_num_threads_write := w },
    ?_, ?_, rfl, rfl, rfl, fun d => rfl⟩
  · simp [Configuration.set_num_thread_read, not_lt.mpr hr]
  · simp [Configuration.set_num_thread_write, not_lt.mpr hw]

/-- Witness for C1 at the concrete counts r = 4, w = 2. -/
theorem C1_num_threads_after_set_witness :
    ∃ c1 c2, Configuration.default.set_num_thread_read 4 = .ok c1 ∧
      c1.set_num_thread_write 2 = .ok c2 ∧
      c2.num_threads .THREADS_READ = 4 ∧
      c2.num_threads .THREADS_WRITE = 2 ∧
      c2.num_threads .THREADS_TOTAL = 4 + 2 := by
  obtain ⟨c1, c2, h1, h2, h3, h4, h5, -⟩ :=
    C1_num_threads_after_set Configuration.default 4 2 (by decide) (by decide)
  exact ⟨c1, c2, h1, h2, h3, h4, h5⟩

/-- C2: every invalid input — a thread count below 1, or a non-positive
expansion factor or max weight — makes the corresponding setter raise a
configuration error; no configuration is produced, so the store remains in
its prior valid state (the embedding returns `.error` and never a mutated
record). -/
theorem C2_invalid_setters_error (c : Configuration) (v : Int) (x : Rat)
    (hv : v < 1) (hx : x ≤ 0) :
    (∃ e, c.set_num_thread_read v = .error e) ∧
    (∃ e, c.set_num_thread_write v = .error e) ∧
    (∃ e, c.set_ef_vertices x = .error e) ∧
    (∃ e, c.set_ef_edges x = .error e) ∧
    (∃ e, c.set_max_weight x = .error e) := by
  refine ⟨⟨⟨"num_threads_read", toString v⟩, ?_⟩,
    ⟨⟨"num_threads_write", toString v⟩, ?_⟩,
    ⟨⟨"ef_vertices", toString x⟩, ?_⟩,
    ⟨⟨"ef_edges", toString x⟩, ?_⟩,
    ⟨⟨"max_weight", toString x⟩, ?_⟩⟩ <;>
  simp [Configuration.set_num_thread_read, Configuration.set_num_thread_write,
    Configuration.set_ef_vertices, Configuration.set_ef_edges,
    Configuration.set_max_weight, hv, hx]

/-- Witness for C2 at the concrete invalid inputs v = 0 and x = -1. -/
theorem C2_invalid_setters_error_witness :
    (∃ e, Configuration.default.set_num_thread_read 0 = .error e) ∧
    (∃ e, Configuration.default.set_num_thread_write 0 = .error e) ∧
    (∃ e, Configuration.default.set_ef_vertices (-1) = .error e) ∧
    (∃ e, Configuration.default.set_ef_edges (-1) = .error e) ∧
    (∃ e, Configuration.default.set_max_weight (-1) = .error e) :=
  C2_invalid_setters_error Configuration.default 0 (-1) (by decide) (by decide)

/-- C3: a freshly default-constructed configuration has seed 5051789,
directed true, timeout 3600 seconds, 5 repetitions and max weight 1.0, each
observed through the corresponding getter. -/
theorem C3_default_values :
    Configuration.default.seed = 5051789 ∧
    Configuration.default.is_graph_directed = true ∧
    Configuration.default.get_timeout_per_operation = 3600 ∧
    Configuration.default.num_repetitions = 5 ∧
    Configuration.default.max_weight = 1 :=
  ⟨rfl, rfl, rfl, rfl, rfl⟩

/-- C4: `has_database` is false exactly when `database_path` is the empty
string and true otherwise, and after `set_database_path p` it equals the
non-emptiness of p. -/
theorem C4_has_database_iff (c : Configuration) (p : String) :
    (c.has_database = false ↔ c.m_database_path = "") ∧
    (c.has_database = true ↔ c.m_database_path ≠ "") ∧
    (c.set_database_path p).has_database = (p != "") := by
  refine ⟨?_, ?_, rfl⟩ <;>
  simp [Configuration.has_database]

/-- C5: once the library name has been resolved against a registry in which
the empty name is never registered, `generate_graph_library` raises an
unknown-library configuration error when the name is empty or has no
registered factory, and otherwise returns the adapter built by the factory
with the currently configured directed flag, whose orientation matches that
flag. -/
theorem C5_generate_graph_library (reg : String → Option LibraryFactory)
    (c : Configuration) (hreg : reg "" = none) :
    ((c.resolve_library reg).m_library_name = "" →
      ∃ e, (c.resolve_library reg).generate_graph_library = .error e) ∧
    (reg (c.resolve_library reg).m_library_name = none →
      ∃ e, (c.resolve_library reg).generate_graph_library = .error e) ∧
    (∀ f, reg (c.resolve_library reg).m_library_name = some f →
      (c.resolve_library reg).generate_graph_library =
        .ok (f.make (c.resolve_library reg).m_graph_directed) ∧
      (f.make (c.resolve_library reg).m_graph_directed).directed =
        (c.resolve_library reg).m_graph_directed) := by
  refine ⟨?_, ?_, ?_⟩
  · intro h
    have hn : reg c.m_library_name = none := by
      have he : c.m_library_name = "" := h
      rw [he, hreg]
    exact ⟨⟨"library_name", c.m_library_name⟩,
      by simp [Configuration.generate_graph_library, Configuration.resolve_library, hn]⟩
  · intro h
    have hn : reg c.m_library_name = none := h
    exact ⟨⟨"library_name", c.m_library_name⟩,
      by simp [Configuration.generate_graph_library, Configuration.resolve_library, hn]⟩
  · intro f h
    have hf : reg c.m_library_name = some f := h
    exact ⟨by simp [Configuration.generate_graph_library, Configuration.resolve_library, hf], rfl⟩

/-- Witness for C5: with a registry holding only the library "llama", the
default configuration (empty name) fails with an error, and a configuration
naming "llama" yields the adapter built with the directed flag true. -/
theorem C5_generate_graph_library_witness :
    (∃ e, (Configuration.default.resolve_library sampleRegistry).generate_graph_library
      = .error e) ∧
    (({ Configuration.default with
        m_library_name := "llama" }.resolve_library sampleRegistry).generate_graph_library
      = .ok (LibraryFactory.make ⟨"llama"⟩ true)) := by
  constructor
  · exact (C5_generate_graph_library sampleRegistry Configuration.default (by decide)).1 rfl
  · exact ((C5_generate_graph_library sampleRegistry
      { Configuration.default with m_library_name := "llama" } (by decide)).2.2
      ⟨"llama"⟩ (by decide)).1

/-- C6: calling `db` when `has_database` is false raises a configuration
error, never a silent null handle; when `has_database` is true it returns the
lazily opened connection handle, cached in the configuration, and an already
opened handle is reused (process lifetime). -/
theorem C6_db (c : Configuration) :
    (c.has_database = false → ∃ e, c.db = .error e) ∧
    (c.has_database = true →
      ∃ d c2, c.db = .ok (c2, d) ∧
        c2 = { c with m_database := some d } ∧
        (∀ d0, c.m_database = some d0 → d = d0)) := by
  constructor
  · intro h
    have hp : c.m_database_path = "" := by
      simpa [Configuration.has_database] using h
    exact ⟨⟨"database_path", c.m_database_path⟩, by simp [Configuration.db, hp]⟩
  · intro h
    have hp : ¬ c.m_database_path = "" := by
      simpa [Configuration.has_database] using h
    match hdb : c.m_database with
    | some d =>
      refine ⟨d, c, ?_, ?_, ?_⟩
      · simp [Configuration.db, hp, hdb]
      · rw [← hdb]
      · intro d0 h0
        exact Option.some_inj.mp h0
    | none =>
      refine ⟨⟨c.m_database_path⟩, { c with m_database := some ⟨c.m_database_path⟩ },
        ?_, rfl, ?_⟩
      · simp [Configuration.db, hp, hdb]
      · intro d0 h0
        exact Option.noConfusion h0

/-- Witness for C6: the default configuration (no database path) fails, and a
configuration whose database path was set yields an open handle. -/
theorem C6_db_witness :
    (∃ e, Configuration.default.db = .error e) ∧
    (∃ d c2, (Configuration.default.set_database_path "results.sqlite3").db
      = .ok (c2, d)) := by
  refine ⟨(C6_db Configuration.default).1 (by decide), ?_⟩
  obtain ⟨d, c2, h, -, -⟩ :=
    (C6_db (Configuration.default.set_database_path "results.sqlite3")).2 (by decide)
  exact ⟨d, c2, h⟩

/-- C7: `set_timeout` and `set_build_frequency` accept every value v ≥ 0
(0 included, as a sentinel) and the respective getter then returns v, while
every negative value w is rejected with a configuration error. -/
theorem C7_timeout_build_frequency (c : Configuration) (v w : Int)
    (hv : 0 ≤ v) (hw : w < 0) :
    (∃ c1, c.set_timeout v = .ok c1 ∧ (c1.get_timeout_per_operation : Int) = v) ∧
    (∃ c2, c.set_build_frequency v = .ok c2 ∧ (c2.get_build_frequency : Int) = v) ∧
    (∃ e, c.set_timeout w = .error e) ∧
    (∃ e, c.set_build_frequency w = .error e) := by
  refine ⟨⟨{ c with m_timeout_seconds := v.toNat }, ?_, ?_⟩,
    ⟨{ c with m_build_frequency := v.toNat }, ?_, ?_⟩,
    ⟨⟨"timeout", toString w⟩, ?_⟩, ⟨⟨"build_frequency", toString w⟩, ?_⟩⟩
  · simp [Configuration.set_timeout, not_lt.mpr hv]
  · simp [Configuration.get_timeout_per_operation, Int.toNat_of_nonneg hv]
  · simp [Configuration.set_build_frequency, not_lt.mpr hv]
  · simp [Configuration.get_build_frequency, Int.toNat_of_nonneg hv]
  · simp [Configuration.set_timeout, hw]
  · simp [Configuration.set_build_frequency, hw]

/-- Witness for C7 at the concrete values v = 0 (the sentinel) and w = -1. -/
theorem C7_timeout_build_frequency_witness :
    (∃ c1, Configuration.default.set_timeout 0 = .ok c1 ∧
      (c1.get_timeout_per_operation : Int) = 0) ∧
    (∃ c2, Configuration.default.set_build_frequency 0 = .ok c2 ∧
      (c2.get_build_frequency : Int) = 0) ∧
    (∃ e, Configuration.default.set_timeout (-1) = .error e) ∧
    (∃ e, Configuration.default.set_build_frequency (-1) = .error e) :=
  C7_timeout_build_frequency Configuration.default 0 (-1) (by decide) (by decide)

/-- C8 counterexample: contrary to the claim that every setter — including
`set_database_path` and `set_seed` — validates its input before mutating,
both inline setters in the header store their argument unconditionally: at
the concrete inputs path = "" and seed = 0 they mutate the store without
raising any configuration error (their return type admits no error at all). -/
theorem C8_counterexample_unvalidated_setters :
    (Configuration.default.set_database_path "").m_database_path = "" ∧
    (Configuration.default.set_seed 0).m_seed = 0 :=
  ⟨rfl, rfl⟩

/-- C8 amended: every setter of a constrained numeric field validates its
input before mutating and rejects some input with a configuration error,
while `set_database_path`, `set_seed` and `set_graph` store their argument
unconditionally, with no validation. -/
theorem C8_amended_setter_validation (c : Configuration) (p g : String) (s : Nat) :
    (∃ e, c.set_num_thread_read 0 = .error e) ∧
    (∃ e, c.set_num_thread_write 0 = .error e) ∧
    (∃ e, c.set_ef_vertices 0 = .error e) ∧
    (∃ e, c.set_ef_edges 0 = .error e) ∧
    (∃ e, c.set_max_weight 0 = .error e) ∧
    (∃ e, c.set_coeff_aging (-1) = .error e) ∧
    (∃ e, c.set_num_repetitions 0 = .error e) ∧
    (∃ e, c.set_timeout (-1) = .error e) ∧
    (∃ e, c.set_build_frequency (-1) = .error e) ∧
    (c.set_database_path p).m_database_path = p ∧
    (c.set_seed s).m_seed = s ∧
    (c.set_graph g).m_path_graph_to_load = g := by
  refine ⟨⟨⟨"num_threads_read", toString (0 : Int)⟩, ?_⟩,
    ⟨⟨"num_threads_write", toString (0 : Int)⟩, ?_⟩,
    ⟨⟨"ef_vertices", toString (0 : Rat)⟩, ?_⟩,
    ⟨⟨"ef_edges", toString (0 : Rat)⟩, ?_⟩,
    ⟨⟨"max_weight", toString (0 : Rat)⟩, ?_⟩,
    ⟨⟨"coeff_aging", toString (-1 : Rat)⟩, ?_⟩,
    ⟨⟨"num_repetitions", toString (0 : Nat)⟩, ?_⟩,
    ⟨⟨"timeout", toString (-1 : Int)⟩, ?_⟩,
    ⟨⟨"build_frequency", toString (-1 : Int)⟩, ?_⟩,
    rfl, rfl, rfl⟩ <;>
  simp [Configuration.set_num_thread_read, Configuration.set_num_thread_write,
    Configuration.set_ef_vertices, Configuration.set_ef_edges,
    Configuration.set_max_weight, Configuration.set_coeff_aging,
    Configuration.set_num_repetitions, Configuration.set_timeout,
    Configuration.set_build_frequency]

/-- C9: every getter is a pure read: it returns exactly the stored field it
exposes (or, for `num_threads` and `has_database`, a value computed only from
stored fields) and, being a function of the configuration record, leaves
every stored field unchanged. -/
theorem C9_getters_pure (c : Configuration) :
    c.get_library_name = c.m_library_name ∧
    c.get_update_log = c.m_update_log ∧
    c.is_graph_directed = c.m_graph_directed ∧
    c.validate_output = c.m_validate_output ∧
    c.coefficient_aging = c.m_coeff_aging ∧
    c.num_repetitions = c.m_num_repetitions ∧
    c.num_threads .THREADS_READ = c.m_num_threads_read ∧
    c.num_threads .THREADS_WRITE = c.m_num_threads_write ∧
    c.num_threads .THREADS_TOTAL = c.m_num_threads_read + c.m_num_threads_write ∧
    c.get_path_graph = c.m_path_graph_to_load ∧
    c.get_timeout_per_operation = c.m_timeout_seconds ∧
    c.get_ef_edges = c.m_ef_edges ∧
    c.get_ef_vertices = c.m_ef_vertices ∧
    c.get_build_frequency = c.m_build_frequency ∧
    c.has_database = (c.m_database_path != "") ∧
    c.seed = c.m_seed ∧
    c.max_weight = c.m_max_weight ∧
    c.get_database_path = c.m_database_path :=
  ⟨rfl, rfl, rfl, rfl, rfl, rfl, rfl, rfl, rfl, rfl, rfl, rfl, rfl, rfl, rfl,
    rfl, rfl, rfl⟩

/-- C10: the default-constructed configuration also initializes the fields the
default list of the spec omits: build frequency 300000 ms, expansion factors
1, aging coefficient 0, one read and one write thread, no output validation,
and empty library name, graph path, update log and database path — hence
`has_database` is false and `generate_graph_library` fails by default. -/
theorem C10_default_remaining_fields :
    Configuration.default.get_build_frequency = 300000 ∧
    Configuration.default.get_ef_vertices = 1 ∧
    Configuration.default.get_ef_edges = 1 ∧
    Configuration.default.coefficient_aging = 0 ∧
    Configuration.default.num_threads .THREADS_READ = 1 ∧
    Configuration.default.num_threads .THREADS_WRITE = 1 ∧
    Configuration.default.validate_output = false ∧
    Configuration.default.get_library_name = "" ∧
    Configuration.default.get_path_graph = "" ∧
    Configuration.default.get_update_log = "" ∧
    Configuration.default.get_database_path = "" ∧
    Configuration.default.has_database = false ∧
    (∃ e, Configuration.default.generate_graph_library = .error e) := by
  refine ⟨by decide, rfl, rfl, rfl, rfl, rfl, rfl, rfl, rfl, rfl, rfl,
    by decide, ⟨⟨"library_name", ""⟩, rfl⟩⟩
